import Mathlib

/-!
Verification of `load_csv_to_pg.py` (peterskim12/csvloader).

The program is embedded shallowly:
* `sanitize_column` / `sanitize_identifier` mirror the two regex-based
  sanitizers (`re.sub(r"[^0-9A-Za-z_]", "_", name.strip())` plus the
  fallback / digit-prefix / error logic).
* psycopg2's `sql.SQL` / `sql.Identifier` / `sql.Placeholder` composition
  is embedded as lists of atoms rendered to SQL text (`renderSql`,
  `sqlFormat`, `sqlJoin`), with identifier quoting `quoteIdent`.
* `main` is embedded as `runMain`, a pure function from the CLI arguments
  and an environment (file existence, parsed CSV records, database
  behaviour oracles) to the list of I/O events the run performs together
  with its outcome.
-/

namespace CsvLoader

/-- Characters matched by the regex class `[0-9A-Za-z_]`. -/
def isWordChar (c : Char) : Bool :=
  (48 ≤ c.toNat && c.toNat ≤ 57) ||   -- 0-9
  (65 ≤ c.toNat && c.toNat ≤ 90) ||   -- A-Z
  (97 ≤ c.toNat && c.toNat ≤ 122) ||  -- a-z
  c.toNat = 95                         -- _

/-- Characters stripped by Python's `str.strip()` (Unicode whitespace,
per `str.isspace`). -/
def isPySpace (c : Char) : Bool :=
  (9 ≤ c.toNat && c.toNat ≤ 13) ||
  (28 ≤ c.toNat && c.toNat ≤ 32) ||
  c.toNat = 0x85 || c.toNat = 0xA0 || c.toNat = 0x1680 ||
  (0x2000 ≤ c.toNat && c.toNat ≤ 0x200A) ||
  c.toNat = 0x2028 || c.toNat = 0x2029 ||
  c.toNat = 0x202F || c.toNat = 0x205F || c.toNat = 0x3000

/-- Python `name.strip()`: drop leading and trailing whitespace. -/
def pyStrip (l : List Char) : List Char :=
  ((l.dropWhile isPySpace).reverse.dropWhile isPySpace).reverse

/-- Embedding of `re.sub(r"[^0-9A-Za-z_]", "_", ...)`: replace every
character outside `[0-9A-Za-z_]` with an underscore, one-for-one. -/
def subNonWord (l : List Char) : List Char :=
  l.map (fun c => if isWordChar c then c else '_')

/-- Embedding of `re.match(r"^[0-9]", ...)`: does the string start with a
digit? -/
def startsWithDigit : List Char → Bool
  | [] => false
  | c :: _ => 48 ≤ c.toNat && c.toNat ≤ 57

/-- The `if not s: s = "col"` step of `sanitize_column`. -/
def colFallback (s : List Char) : List Char :=
  if s = [] then ['c', 'o', 'l'] else s

/-- The `if re.match(r"^[0-9]", s): s = "c_" + s` step of
`sanitize_column`. -/
def leadingDigitFix (s : List Char) : List Char :=
  if startsWithDigit s then 'c' :: '_' :: s else s

/-- The function `sanitize_column` from the source, on character lists. -/
def sanitize_column_chars (name : List Char) : List Char :=
  leadingDigitFix (colFallback (subNonWord (pyStrip name)))

/-- The function `sanitize_column(name)`: strip, replace non-word
characters with `_`, fall back to `"col"` when empty, add a `"c_"` in
front of a leading digit. -/
def sanitize_column (name : String) : String :=
  String.mk (sanitize_column_chars name.data)

/-- The function `sanitize_identifier` from the source, on character
lists; `none` models the `ValueError("Invalid identifier")` raise. -/
def sanitize_identifier_chars (name : List Char) : Option (List Char) :=
  let s := subNonWord (pyStrip name)
  if s = [] then none else some s

/-- The function `sanitize_identifier(name)` on strings. -/
def sanitize_identifier (name : String) : Option String :=
  (sanitize_identifier_chars name.data).map String.mk

/-- Opening brace character. -/
def lbrace : Char := Char.ofNat 123

/-- Closing brace character. -/
def rbrace : Char := Char.ofNat 125

/-- Rendering of `sql.Identifier(s)`: wrap in double quotes, doubling any
embedded double quote. -/
def quoteIdent (s : String) : String :=
  String.mk ('"' :: (s.data.flatMap fun c => if c = '"' then ['"', '"'] else [c]) ++ ['"'])

/-- One constituent of a composed psycopg2 SQL object. -/
inductive Atom where
  | raw (s : String)
  | ident (s : String)
  | placeholder
  deriving Repr, DecidableEq

/-- Rendering of a single SQL atom to text. -/
def renderAtom : Atom → String
  | .raw s => s
  | .ident s => quoteIdent s
  | .placeholder => "%s"

/-- Rendering of `Composed(...)`: concatenation of the parts. -/
def renderSql : List Atom → String
  | [] => ""
  | a :: l => renderAtom a ++ renderSql l

/-- Embedding of `sql.SQL(sep).join(parts)`. -/
def sqlJoin (sep : List Atom) : List (List Atom) → List Atom
  | [] => []
  | [x] => x
  | x :: xs => x ++ sep ++ sqlJoin sep xs

/-- Split a template into the literal pieces around each `\x7b\x7d`
placeholder pair. -/
def splitOnBraces : List Char → List (List Char)
  | [] => [[]]
  | [c] => [[c]]
  | c :: d :: rest =>
    if c = lbrace ∧ d = rbrace then [] :: splitOnBraces rest
    else
      match splitOnBraces (d :: rest) with
      | [] => [[c]]
      | p :: ps => (c :: p) :: ps

/-- Interleave the literal template pieces with the format arguments. -/
def interleave : List (List Char) → List (List Atom) → List Atom
  | [], _ => []
  | p :: ps, [] => Atom.raw (String.mk p) :: (ps.map fun q => Atom.raw (String.mk q))
  | p :: ps, a :: as => Atom.raw (String.mk p) :: (a ++ interleave ps as)

/-- Embedding of `sql.SQL(tmpl).format(args...)`. -/
def sqlFormat (tmpl : String) (args : List (List Atom)) : List Atom :=
  interleave (splitOnBraces tmpl.data) args

/-- The `col_defs` object from the source: comma-join of per-column
`"\x7b\x7d text"` fragments. -/
def col_defs (columns : List String) : List Atom :=
  sqlJoin [Atom.raw ", "] (columns.map fun c => sqlFormat "\x7b\x7d text" [[Atom.ident c]])

/-- The `create_sql` statement from the source, rendered to text. -/
def create_sql (schema table : String) (columns : List String) : String :=
  renderSql (sqlFormat "CREATE TABLE IF NOT EXISTS \x7b\x7d.\x7b\x7d (\x7b\x7d)"
    [[Atom.ident schema], [Atom.ident table], col_defs columns])

/-- The `insert_template` statement from the source, rendered to text,
with one `%s` placeholder per column. -/
def insert_template (schema table : String) (columns : List String) : String :=
  renderSql (sqlFormat "INSERT INTO \x7b\x7d.\x7b\x7d (\x7b\x7d) VALUES (\x7b\x7d)"
    [[Atom.ident schema], [Atom.ident table],
     sqlJoin [Atom.raw ", "] (columns.map fun c => [Atom.ident c]),
     sqlJoin [Atom.raw ", "] (List.replicate columns.length [Atom.placeholder])])

/-- Comma-separated concatenation, as the spec's statement templates list
columns. -/
def commaSep : List String → String
  | [] => ""
  | [x] => x
  | x :: xs => x ++ ", " ++ commaSep xs

/-- Modelled from the spec wording of claim C8: a statement equivalent to
`CREATE TABLE IF NOT EXISTS <schema>.<table> (<col1> text, ...)` with each
identifier individually quoted as a database identifier. -/
def create_table_stmt_spec (schema table : String) (cols : List String) : String :=
  "CREATE TABLE IF NOT EXISTS " ++ quoteIdent schema ++ "." ++ quoteIdent table ++
    " (" ++ commaSep (cols.map fun c => quoteIdent c ++ " text") ++ ")"

/-- CLI arguments relevant to the load; host, port and credentials only
feed the connection and do not influence the embedded behaviour. -/
structure Args where
  csv : String
  schema : String
  table : String

/-- Environment a run observes: whether the CSV path exists, the parsed
CSV records, and oracles for connection, CREATE TABLE and per-row INSERT
success. -/
structure Env where
  fileExists : Bool
  records : List (List String)
  connectOk : Bool
  createOk : Bool
  insertOk : List String → Bool

/-- Observable I/O events of a run, in order. -/
inductive Event where
  | openFile (path : String)
  | connectAttempt
  | connect
  | execCreate (stmt : String)
  | execInsert (stmt : String) (params : List String)
  | commit
  | close
  deriving Repr, DecidableEq

/-- How the process terminates. `invalidIdentifier` models the uncaught
`ValueError("Invalid identifier")`; `exitError` models `sys.exit(code)`
after printing `msg` to stderr; `uncaught` models any other exception
propagating out of `main`; `success` carries the stdout message. -/
inductive Outcome where
  | invalidIdentifier
  | exitError (code : Nat) (msg : String)
  | uncaught
  | success (msg : String)
  deriving Repr, DecidableEq

/-- The `for row in reader: cur.execute(insert_template, row)` loop:
the insert events plus `some rowCount` on success, `none` as soon as an
insert raises. -/
def insertRows (ok : List String → Bool) (tmpl : String) :
    List (List String) → List Event × Option Nat
  | [] => ([], some 0)
  | r :: rs =>
    if ok r then
      (Event.execInsert tmpl r :: (insertRows ok tmpl rs).1,
       (insertRows ok tmpl rs).2.map (· + 1))
    else ([Event.execInsert tmpl r], none)

/-- The part of `main` after the header has been read (lines 63-96 of the
source): sanitize columns, connect, create the table, re-open the CSV,
insert every data row, commit, report; close the connection on every path
once it has been opened. -/
def loadPhase (csvPath schema table : String) (env : Env)
    (header : List String) (rows : List (List String)) : List Event × Outcome :=
  if env.connectOk then
    if env.createOk then
      match (insertRows env.insertOk
          (insert_template schema table (header.map sanitize_column)) rows).2 with
      | some n =>
        (Event.openFile csvPath :: Event.connect ::
           Event.execCreate (create_sql schema table (header.map sanitize_column)) ::
           Event.openFile csvPath ::
           (insertRows env.insertOk
             (insert_template schema table (header.map sanitize_column)) rows).1 ++
           [Event.commit, Event.close],
         Outcome.success ("Loaded " ++ toString n ++ " rows from CSV '" ++ csvPath ++
           "' into " ++ schema ++ "." ++ table))
      | none =>
        (Event.openFile csvPath :: Event.connect ::
           Event.execCreate (create_sql schema table (header.map sanitize_column)) ::
           Event.openFile csvPath ::
           (insertRows env.insertOk
             (insert_template schema table (header.map sanitize_column)) rows).1 ++
           [Event.close],
         Outcome.uncaught)
    else
      ([Event.openFile csvPath, Event.connect,
        Event.execCreate (create_sql schema table (header.map sanitize_column)),
        Event.close],
       Outcome.uncaught)
  else ([Event.openFile csvPath, Event.connectAttempt], Outcome.uncaught)

/-- The file-reading prologue of `main` (lines 50-61 of the source):
missing file and empty file are reported on stderr with exit code 1,
before any database work. -/
def runLoad (csvPath schema table : String) (env : Env) : List Event × Outcome :=
  if env.fileExists then
    match env.records with
    | [] => ([Event.openFile csvPath], Outcome.exitError 1 "CSV file is empty")
    | header :: rows => loadPhase csvPath schema table env header rows
  else ([], Outcome.exitError 1 ("CSV file not found: " ++ csvPath))

/-- The function `main` (minus argument parsing): sanitize the schema and
table names, then load. -/
def runMain (a : Args) (env : Env) : List Event × Outcome :=
  match sanitize_identifier a.schema with
  | none => ([], Outcome.invalidIdentifier)
  | some schema =>
    match sanitize_identifier a.table with
    | none => ([], Outcome.invalidIdentifier)
    | some table => runLoad a.csv schema table env

/-- Fixture arguments for the concrete witnesses. -/
def a0 : Args := { csv := "data.csv", schema := "public", table := "data" }

/-- Fixture environment: existing file holding the example header and one
data row, fully cooperative database. -/
def env0 : Env :=
  { fileExists := true
    records := [["Permit #", "2nd Street", "notes"], ["a", "b", "c"]]
    connectOk := true
    createOk := true
    insertOk := fun _ => true }

/-! Section 2: theorems. -/

theorem isWordChar_not_space {c : Char} (h : isWordChar c = true) :
    isPySpace c = false := by
  simp only [isWordChar, Bool.or_eq_true, Bool.and_eq_true,
    decide_eq_true_eq] at h
  rw [Bool.eq_false_iff]
  intro hsp
  simp only [isPySpace, Bool.or_eq_true, Bool.and_eq_true,
    decide_eq_true_eq] at hsp
  omega

theorem dropWhile_eq_self_of_forall {p : Char → Bool} {l : List Char}
    (h : ∀ c ∈ l, p c = false) : l.dropWhile p = l := by
  cases l with
  | nil => rfl
  | cons c cs =>
    have hc := h c (by simp)
    simp [List.dropWhile, hc]

theorem pyStrip_eq_self_of_word {l : List Char}
    (h : ∀ c ∈ l, isWordChar c = true) : pyStrip l = l := by
  unfold pyStrip
  rw [dropWhile_eq_self_of_forall (fun c hc => isWordChar_not_space (h c hc))]
  rw [dropWhile_eq_self_of_forall
    (fun c hc => isWordChar_not_space (h c (List.mem_reverse.mp hc)))]
  exact List.reverse_reverse l

theorem subNonWord_mem_word {l : List Char} {c : Char}
    (h : c ∈ subNonWord l) : isWordChar c = true := by
  rcases List.mem_map.mp h with ⟨a, _, ha⟩
  by_cases hw : isWordChar a = true
  · rw [if_pos hw] at ha
    exact ha ▸ hw
  · rw [if_neg hw] at ha
    exact ha ▸ (by decide : isWordChar '_' = true)

theorem subNonWord_eq_self_of_word {l : List Char}
    (h : ∀ c ∈ l, isWordChar c = true) : subNonWord l = l := by
  unfold subNonWord
  rw [List.map_congr_left fun c hc => if_pos (h c hc)]
  exact List.map_id l

theorem colFallback_ne_nil (s : List Char) : colFallback s ≠ [] := by
  unfold colFallback
  split <;> simp_all

theorem colFallback_mem_word {s : List Char}
    (h : ∀ c ∈ s, isWordChar c = true) :
    ∀ c ∈ colFallback s, isWordChar c = true := by
  intro c hc
  unfold colFallback at hc
  split at hc
  · simp only [List.mem_cons, List.not_mem_nil, or_false] at hc
    rcases hc with h1 | h1 | h1 <;> subst h1 <;> decide
  · exact h c hc

theorem leadingDigitFix_mem_word {s : List Char}
    (h : ∀ c ∈ s, isWordChar c = true) :
    ∀ c ∈ leadingDigitFix s, isWordChar c = true := by
  intro c hc
  unfold leadingDigitFix at hc
  split at hc
  · rcases List.mem_cons.mp hc with h1 | h1
    · subst h1; decide
    · rcases List.mem_cons.mp h1 with h2 | h2
      · subst h2; decide
      · exact h c h2
  · exact h c hc

theorem leadingDigitFix_ne_nil {s : List Char} (h : s ≠ []) :
    leadingDigitFix s ≠ [] := by
  unfold leadingDigitFix
  split <;> simp_all

theorem leadingDigitFix_no_digit (s : List Char) :
    startsWithDigit (leadingDigitFix s) = false := by
  unfold leadingDigitFix
  by_cases hd : startsWithDigit s = true
  · rw [if_pos hd]; rfl
  · rw [if_neg hd]
    exact Bool.not_eq_true _ |>.mp hd

theorem sanitize_column_chars_word {name : List Char} :
    ∀ c ∈ sanitize_column_chars name, isWordChar c = true :=
  leadingDigitFix_mem_word (colFallback_mem_word fun _ hc => subNonWord_mem_word hc)

theorem sanitize_column_chars_ne_nil (name : List Char) :
    sanitize_column_chars name ≠ [] :=
  leadingDigitFix_ne_nil (colFallback_ne_nil _)

theorem sanitize_column_chars_no_digit (name : List Char) :
    startsWithDigit (sanitize_column_chars name) = false :=
  leadingDigitFix_no_digit _

theorem sanitize_column_chars_fixpoint {l : List Char}
    (hword : ∀ c ∈ l, isWordChar c = true) (hne : l ≠ [])
    (hnd : startsWithDigit l = false) : sanitize_column_chars l = l := by
  unfold sanitize_column_chars
  rw [pyStrip_eq_self_of_word hword, subNonWord_eq_self_of_word hword]
  unfold colFallback leadingDigitFix
  rw [if_neg hne, if_neg (by rw [hnd]; exact Bool.false_ne_true)]

/-- C2: for every input string, `sanitize_column` returns (never fails) a
string containing only characters in `[0-9A-Za-z_]`, non-empty, and not
starting with a digit. -/
theorem sanitize_column_valid (s : String) :
    (∀ c ∈ (sanitize_column s).data, isWordChar c = true) ∧
    sanitize_column s ≠ "" ∧
    startsWithDigit (sanitize_column s).data = false := by
  refine ⟨fun c hc => sanitize_column_chars_word c hc, ?_, ?_⟩
  · intro h
    exact sanitize_column_chars_ne_nil s.data (congrArg String.data h)
  · exact sanitize_column_chars_no_digit s.data

/-- Concrete instance of `sanitize_column_valid` at input `"9 a"`. -/
theorem sanitize_column_valid_witness :
    (∀ c ∈ (sanitize_column "9 a").data, isWordChar c = true) ∧
    sanitize_column "9 a" ≠ "" ∧
    startsWithDigit (sanitize_column "9 a").data = false :=
  sanitize_column_valid "9 a"

/-- C9: sanitizing the header `["Permit #", "2nd Street", "notes"]` yields
exactly `["Permit__", "c_2nd_Street", "notes"]`. -/
theorem sanitize_header_example :
    ["Permit #", "2nd Street", "notes"].map sanitize_column
      = ["Permit__", "c_2nd_Street", "notes"] := by decide

theorem sanitize_column_chars_idem (l : List Char) :
    sanitize_column_chars (sanitize_column_chars l) = sanitize_column_chars l :=
  sanitize_column_chars_fixpoint sanitize_column_chars_word
    (sanitize_column_chars_ne_nil l) (sanitize_column_chars_no_digit l)

/-- C10: `sanitize_column` is idempotent. -/
theorem sanitize_column_idem (s : String) :
    sanitize_column (sanitize_column s) = sanitize_column s :=
  congrArg String.mk (sanitize_column_chars_idem s.data)

/-- Concrete instance of `sanitize_column_idem` at input `"Permit #"`. -/
theorem sanitize_column_idem_witness :
    sanitize_column (sanitize_column "Permit #") = sanitize_column "Permit #" :=
  sanitize_column_idem "Permit #"

/-- C1 as stated is false: `sanitize_identifier` strips surrounding
whitespace before substituting, so on `" a"` the result is `"a"`, not the
one-for-one character replacement `"_a"` of the input. -/
theorem sanitize_identifier_not_charwise :
    sanitize_identifier " a" = some "a" ∧
    ("a" : String).data ≠ subNonWord ((" a" : String).data) := by decide

/-- C1 (amended): whenever `sanitize_identifier` succeeds, its result is
the whitespace-trimmed input with every character outside `[0-9A-Za-z_]`
replaced one-for-one by `_`, and hence contains only characters in
`[0-9A-Za-z_]`. -/
theorem sanitize_identifier_spec (s t : String)
    (h : sanitize_identifier s = some t) :
    t.data = subNonWord (pyStrip s.data) ∧
    ∀ c ∈ t.data, isWordChar c = true := by
  simp only [sanitize_identifier, sanitize_identifier_chars] at h
  split at h
  · simp at h
  · simp only [Option.map_some'] at h
    have ht := (Option.some.inj h).symm
    subst ht
    exact ⟨rfl, fun _ hc => subNonWord_mem_word hc⟩

/-- Concrete instance of `sanitize_identifier_spec` at input `" a"`. -/
theorem sanitize_identifier_spec_witness :
    ("a" : String).data = subNonWord (pyStrip ((" a" : String).data)) ∧
    ∀ c ∈ ("a" : String).data, isWordChar c = true :=
  sanitize_identifier_spec " a" "a" (by decide)

theorem string_nil_append (s : String) : "" ++ s = s :=
  congrArg String.mk (List.nil_append s.data)

theorem string_append_nil (s : String) : s ++ "" = s :=
  congrArg String.mk (List.append_nil s.data)

theorem string_append_assoc (a b c : String) : a ++ b ++ c = a ++ (b ++ c) :=
  congrArg String.mk (List.append_assoc a.data b.data c.data)

theorem renderSql_append (l1 l2 : List Atom) :
    renderSql (l1 ++ l2) = renderSql l1 ++ renderSql l2 := by
  induction l1 with
  | nil => rw [List.nil_append, renderSql, string_nil_append]
  | cons a l ih =>
    rw [List.cons_append, renderSql, renderSql, ih, string_append_assoc]

theorem renderSql_sqlJoin_comma :
    (parts : List (List Atom)) →
    renderSql (sqlJoin [Atom.raw ", "] parts) = commaSep (parts.map renderSql)
  | [] => rfl
  | [x] => rfl
  | x :: y :: xs => by
    have ih := renderSql_sqlJoin_comma (y :: xs)
    show renderSql (x ++ [Atom.raw ", "] ++ sqlJoin [Atom.raw ", "] (y :: xs))
        = renderSql x ++ ", " ++ commaSep ((y :: xs).map renderSql)
    rw [renderSql_append, renderSql_append, ih,
      show renderSql [Atom.raw ", "] = ", " ++ "" from rfl, string_append_nil]

theorem render_colDef (c : String) :
    renderSql (sqlFormat "\x7b\x7d text" [[Atom.ident c]]) = quoteIdent c ++ " text" := by
  show ("" : String) ++ (quoteIdent c ++ (" text" ++ "")) = quoteIdent c ++ " text"
  rw [string_nil_append, string_append_nil]

theorem renderSql_col_defs (cols : List String) :
    renderSql (col_defs cols) = commaSep (cols.map fun c => quoteIdent c ++ " text") := by
  unfold col_defs
  rw [renderSql_sqlJoin_comma, List.map_map]
  exact congrArg commaSep (List.map_congr_left fun c _ => render_colDef c)

theorem create_sql_eq_spec (schema table : String) (cols : List String) :
    create_sql schema table cols = create_table_stmt_spec schema table cols := by
  show "CREATE TABLE IF NOT EXISTS " ++
      (quoteIdent schema ++ ("." ++ (quoteIdent table ++ (" (" ++
        renderSql (col_defs cols ++ [Atom.raw ")"])))))
      = create_table_stmt_spec schema table cols
  rw [renderSql_append, renderSql_col_defs]
  unfold create_table_stmt_spec
  simp only [string_append_assoc]
  rw [show renderSql [Atom.raw ")"] = ")" ++ "" from rfl, string_append_nil]

theorem insertRows_all_ok (ok : List String → Bool) (tmpl : String) :
    (rows : List (List String)) → (∀ r ∈ rows, ok r = true) →
    insertRows ok tmpl rows = (rows.map (Event.execInsert tmpl), some rows.length)
  | [], _ => rfl
  | r :: rs, h => by
    have hr : ok r = true := h r (by simp)
    have ih := insertRows_all_ok ok tmpl rs fun x hx => h x (by simp [hx])
    unfold insertRows
    rw [if_pos hr, ih]
    simp

theorem insertRows_events (ok : List String → Bool) (tmpl : String) :
    (rows : List (List String)) → ∀ e ∈ (insertRows ok tmpl rows).1,
      ∃ p, e = Event.execInsert tmpl p
  | [] => by simp [insertRows]
  | r :: rs => by
    intro e he
    unfold insertRows at he
    by_cases hr : ok r = true
    · rw [if_pos hr] at he
      rcases List.mem_cons.mp he with h1 | h1
      · exact ⟨r, h1⟩
      · exact insertRows_events ok tmpl rs e h1
    · rw [if_neg hr] at he
      simp only [List.mem_cons, List.not_mem_nil, or_false] at he
      exact ⟨r, he⟩

theorem commit_not_mem_insertRows (ok : List String → Bool) (tmpl : String)
    (rows : List (List String)) :
    Event.commit ∉ (insertRows ok tmpl rows).1 := by
  intro h
  obtain ⟨p, hp⟩ := insertRows_events ok tmpl rows _ h
  exact Event.noConfusion hp

theorem mem_loadTrace_create {stmt csvPath st tmpl : String} {ev tail : List Event}
    (hev : ∀ e ∈ ev, ∃ q, e = Event.execInsert tmpl q)
    (htail : Event.execCreate stmt ∉ tail)
    (hmem : Event.execCreate stmt ∈
      Event.openFile csvPath :: Event.connect :: Event.execCreate st ::
        Event.openFile csvPath :: (ev ++ tail)) :
    stmt = st := by
  simp only [List.mem_cons, List.mem_append] at hmem
  rcases hmem with h | h | h | h | h | h
  · exact Event.noConfusion h
  · exact Event.noConfusion h
  · exact Event.execCreate.inj h
  · exact Event.noConfusion h
  · obtain ⟨q, hq⟩ := hev _ h
    exact Event.noConfusion hq
  · exact absurd h htail

theorem mem_loadTrace_insert {stmt csvPath st tmpl : String} {ps : List String}
    {ev tail : List Event}
    (hev : ∀ e ∈ ev, ∃ q, e = Event.execInsert tmpl q)
    (htail : Event.execInsert stmt ps ∉ tail)
    (hmem : Event.execInsert stmt ps ∈
      Event.openFile csvPath :: Event.connect :: Event.execCreate st ::
        Event.openFile csvPath :: (ev ++ tail)) :
    stmt = tmpl := by
  simp only [List.mem_cons, List.mem_append] at hmem
  rcases hmem with h | h | h | h | h | h
  · exact Event.noConfusion h
  · exact Event.noConfusion h
  · exact Event.noConfusion h
  · exact Event.noConfusion h
  · obtain ⟨q, hq⟩ := hev _ h
    exact (Event.execInsert.inj hq).1
  · exact absurd h htail

theorem loadPhase_statements (csvPath s t : String) (env : Env)
    (header : List String) (rows : List (List String)) :
    (∀ stmt, Event.execCreate stmt ∈ (loadPhase csvPath s t env header rows).1 →
      stmt = create_sql s t (header.map sanitize_column)) ∧
    (∀ stmt ps, Event.execInsert stmt ps ∈ (loadPhase csvPath s t env header rows).1 →
      stmt = insert_template s t (header.map sanitize_column)) := by
  have hev := insertRows_events env.insertOk
    (insert_template s t (header.map sanitize_column)) rows
  constructor
  · intro stmt hmem
    unfold loadPhase at hmem
    split at hmem
    · split at hmem
      · split at hmem
        · exact mem_loadTrace_create hev (by simp) hmem
        · exact mem_loadTrace_create hev (by simp) hmem
      · simp only [List.mem_cons, List.not_mem_nil, or_false] at hmem
        rcases hmem with h | h | h | h
        · exact Event.noConfusion h
        · exact Event.noConfusion h
        · exact Event.execCreate.inj h
        · exact Event.noConfusion h
    · simp only [List.mem_cons, List.not_mem_nil, or_false] at hmem
      rcases hmem with h | h <;> exact Event.noConfusion h
  · intro stmt ps hmem
    unfold loadPhase at hmem
    split at hmem
    · split at hmem
      · split at hmem
        · exact mem_loadTrace_insert hev (by simp) hmem
        · exact mem_loadTrace_insert hev (by simp) hmem
      · simp only [List.mem_cons, List.not_mem_nil, or_false] at hmem
        rcases hmem with h | h | h | h <;> exact Event.noConfusion h
    · simp only [List.mem_cons, List.not_mem_nil, or_false] at hmem
      rcases hmem with h | h <;> exact Event.noConfusion h

theorem trace_statements (a : Args) (env : Env) (s t : String)
    (hs : sanitize_identifier a.schema = some s)
    (ht : sanitize_identifier a.table = some t) :
    (∀ stmt, Event.execCreate stmt ∈ (runMain a env).1 →
      ∃ header rows, env.records = header :: rows ∧
        stmt = create_sql s t (header.map sanitize_column)) ∧
    (∀ stmt ps, Event.execInsert stmt ps ∈ (runMain a env).1 →
      ∃ header rows, env.records = header :: rows ∧
        stmt = insert_template s t (header.map sanitize_column)) := by
  unfold runMain
  split
  · rename_i heq
    rw [hs] at heq
    exact Option.noConfusion heq
  · rename_i s1 heq
    rw [hs] at heq
    obtain rfl := Option.some.inj heq
    split
    · rename_i heq2
      rw [ht] at heq2
      exact Option.noConfusion heq2
    · rename_i t1 heq2
      rw [ht] at heq2
      obtain rfl := Option.some.inj heq2
      unfold runLoad
      split
      · split
        · constructor
          · intro stmt hmem
            simp at hmem
          · intro stmt ps hmem
            simp at hmem
        · rename_i header rows heq3
          obtain ⟨hcre, hins⟩ := loadPhase_statements a.csv s t env header rows
          exact ⟨fun stmt hmem => ⟨header, rows, heq3, hcre stmt hmem⟩,
                 fun stmt ps hmem => ⟨header, rows, heq3, hins stmt ps hmem⟩⟩
      · constructor
        · intro stmt hmem
          simp at hmem
        · intro stmt ps hmem
          simp at hmem

theorem loadPhase_transaction (csvPath s t : String) (env : Env)
    (header : List String) (rows : List (List String)) :
    ((∃ msg, (loadPhase csvPath s t env header rows).2 = Outcome.success msg) ↔
      Event.commit ∈ (loadPhase csvPath s t env header rows).1) ∧
    (Event.commit ∈ (loadPhase csvPath s t env header rows).1 →
      ∃ es, (loadPhase csvPath s t env header rows).1 = es ++ [Event.commit, Event.close] ∧
        Event.commit ∉ es) ∧
    (Event.connect ∈ (loadPhase csvPath s t env header rows).1 →
      ∃ es, (loadPhase csvPath s t env header rows).1 = es ++ [Event.close]) := by
  have hnc := commit_not_mem_insertRows env.insertOk
    (insert_template s t (header.map sanitize_column)) rows
  unfold loadPhase
  split
  · split
    · split
      · refine ⟨⟨fun _ => by simp, fun _ => ⟨_, rfl⟩⟩,
          fun _ => ⟨Event.openFile csvPath :: Event.connect ::
            Event.execCreate (create_sql s t (header.map sanitize_column)) ::
            Event.openFile csvPath ::
            (insertRows env.insertOk (insert_template s t (header.map sanitize_column)) rows).1,
            by simp, by simp [hnc]⟩,
          fun _ => ⟨Event.openFile csvPath :: Event.connect ::
            Event.execCreate (create_sql s t (header.map sanitize_column)) ::
            Event.openFile csvPath ::
            ((insertRows env.insertOk (insert_template s t (header.map sanitize_column)) rows).1 ++
              [Event.commit]),
            by simp⟩⟩
      · refine ⟨⟨fun hmsg => ?_, fun hmem => ?_⟩, fun hmem => ?_,
          fun _ => ⟨Event.openFile csvPath :: Event.connect ::
            Event.execCreate (create_sql s t (header.map sanitize_column)) ::
            Event.openFile csvPath ::
            (insertRows env.insertOk (insert_template s t (header.map sanitize_column)) rows).1,
            by simp⟩⟩
        · obtain ⟨msg, hmsg⟩ := hmsg
          exact Outcome.noConfusion hmsg
        · exfalso
          simp [hnc] at hmem
        · exfalso
          simp [hnc] at hmem
    · refine ⟨⟨fun hmsg => ?_, fun hmem => ?_⟩, fun hmem => ?_,
        fun _ => ⟨[Event.openFile csvPath, Event.connect,
          Event.execCreate (create_sql s t (header.map sanitize_column))], rfl⟩⟩
      · obtain ⟨msg, hmsg⟩ := hmsg
        exact Outcome.noConfusion hmsg
      · exfalso
        simp at hmem
      · exfalso
        simp at hmem
  · refine ⟨⟨fun hmsg => ?_, fun hmem => ?_⟩, fun hmem => ?_, fun hmem => ?_⟩
    · obtain ⟨msg, hmsg⟩ := hmsg
      exact Outcome.noConfusion hmsg
    · exfalso
      simp at hmem
    · exfalso
      simp at hmem
    · exfalso
      simp at hmem

/-- C3: if the sanitized schema name or sanitized table name is empty, the
run fails with the invalid-identifier error, with an empty I/O trace: the
CSV file is never opened and no database connection is ever attempted. -/
theorem invalid_identifier_before_io (a : Args) (env : Env)
    (h : sanitize_identifier a.schema = none ∨ sanitize_identifier a.table = none) :
    runMain a env = ([], Outcome.invalidIdentifier) := by
  unfold runMain
  rcases h with h | h
  · rw [h]
  · cases hs : sanitize_identifier a.schema with
    | none => rfl
    | some s => rw [h]

/-- Concrete instance of `invalid_identifier_before_io`: a table name of
`" "` sanitizes to empty. -/
theorem invalid_identifier_before_io_witness :
    runMain { csv := "data.csv", schema := "public", table := " " } env0
      = ([], Outcome.invalidIdentifier) :=
  invalid_identifier_before_io _ env0 (Or.inr (by decide))

/-- C4: with valid identifiers, a missing CSV path exits with code 1 and a
stderr message naming the path, an existing CSV with no records at all
exits with code 1 and the empty-file message, and in both cases the trace
contains no connection attempt. -/
theorem csv_errors_before_connect (a : Args) (env : Env) (s t : String)
    (hs : sanitize_identifier a.schema = some s)
    (ht : sanitize_identifier a.table = some t) :
    (env.fileExists = false →
      runMain a env = ([], Outcome.exitError 1 ("CSV file not found: " ++ a.csv))) ∧
    (env.fileExists = true → env.records = [] →
      runMain a env = ([Event.openFile a.csv], Outcome.exitError 1 "CSV file is empty")) ∧
    ((env.fileExists = false ∨ env.records = []) →
      Event.connect ∉ (runMain a env).1 ∧ Event.connectAttempt ∉ (runMain a env).1) := by
  refine ⟨fun hf => ?_, fun hf hr => ?_, fun hd => ?_⟩
  · simp [runMain, runLoad, hs, ht, hf]
  · simp [runMain, runLoad, hs, ht, hf, hr]
  · rcases hd with hf | hr
    · simp [runMain, runLoad, hs, ht, hf]
    · cases hf : env.fileExists
      · simp [runMain, runLoad, hs, ht, hf]
      · simp [runMain, runLoad, hs, ht, hf, hr]

/-- Concrete instance of `csv_errors_before_connect`: missing file. -/
theorem csv_errors_before_connect_witness :
    runMain a0 { env0 with fileExists := false }
      = ([], Outcome.exitError 1 ("CSV file not found: " ++ a0.csv)) :=
  (csv_errors_before_connect a0 { env0 with fileExists := false } "public" "data"
    (by decide) (by decide)).1 rfl

/-- C5: the run commits exactly when it succeeds; when it commits, the
commit is the last event before the final close, after every CREATE and
INSERT; and once the connection is opened, the trace always ends with a
close, on success and on failure alike. -/
theorem transaction_discipline (a : Args) (env : Env) :
    ((∃ msg, (runMain a env).2 = Outcome.success msg) ↔
      Event.commit ∈ (runMain a env).1) ∧
    (Event.commit ∈ (runMain a env).1 →
      ∃ es, (runMain a env).1 = es ++ [Event.commit, Event.close] ∧
        Event.commit ∉ es) ∧
    (Event.connect ∈ (runMain a env).1 →
      ∃ es, (runMain a env).1 = es ++ [Event.close]) := by
  unfold runMain
  split
  · exact ⟨by simp, by simp, by simp⟩
  · split
    · exact ⟨by simp, by simp, by simp⟩
    · unfold runLoad
      split
      · split
        · exact ⟨by simp, by simp, by simp⟩
        · exact loadPhase_transaction a.csv _ _ env _ _
      · exact ⟨by simp, by simp, by simp⟩

/-- Concrete instance of `transaction_discipline`: the fixture run commits. -/
theorem transaction_discipline_witness :
    Event.commit ∈ (runMain a0 env0).1 :=
  (transaction_discipline a0 env0).1.mp
    ⟨"Loaded 1 rows from CSV 'data.csv' into public.data", rfl⟩

/-- C6: when every statement succeeds, the run succeeds and prints exactly
the Loaded message, with the count equal to the number of data rows
(including the zero-row case). -/
theorem success_message (a : Args) (env : Env) (s t : String)
    (header : List String) (rows : List (List String))
    (hs : sanitize_identifier a.schema = some s)
    (ht : sanitize_identifier a.table = some t)
    (hf : env.fileExists = true)
    (hr : env.records = header :: rows)
    (hc : env.connectOk = true)
    (hcr : env.createOk = true)
    (hins : ∀ r ∈ rows, env.insertOk r = true) :
    (runMain a env).2 = Outcome.success
      ("Loaded " ++ toString rows.length ++ " rows from CSV '" ++ a.csv ++
        "' into " ++ s ++ "." ++ t) := by
  have hrows := insertRows_all_ok env.insertOk
    (insert_template s t (header.map sanitize_column)) rows hins
  simp [runMain, runLoad, loadPhase, hs, ht, hf, hr, hc, hcr, hrows]

/-- Concrete instance of `success_message` with a header-only CSV: the run
succeeds and reports zero rows. -/
theorem success_message_witness :
    (runMain a0 { env0 with records := [["Permit #", "2nd Street", "notes"]] }).2
      = Outcome.success "Loaded 0 rows from CSV 'data.csv' into public.data" :=
  success_message a0 _ "public" "data" ["Permit #", "2nd Street", "notes"] []
    (by decide) (by decide) rfl rfl rfl rfl (fun _ h => absurd h (List.not_mem_nil _))

/-- C7: whenever a CREATE TABLE is executed, its column list is the one
obtained by applying `sanitize_column` to each header field in order, and
every INSERT in the same run uses exactly that list via the single insert
template; the statements agree on one shared column list. -/
theorem columns_once (a : Args) (env : Env) (s t : String)
    (hs : sanitize_identifier a.schema = some s)
    (ht : sanitize_identifier a.table = some t) :
    ∀ stmt, Event.execCreate stmt ∈ (runMain a env).1 →
      ∃ header rows, env.records = header :: rows ∧
        stmt = create_sql s t (header.map sanitize_column) ∧
        ∀ stmt2 ps, Event.execInsert stmt2 ps ∈ (runMain a env).1 →
          stmt2 = insert_template s t (header.map sanitize_column) := by
  intro stmt hmem
  obtain ⟨hcreate, hinsert⟩ := trace_statements a env s t hs ht
  obtain ⟨header, rows, hrec, hstmt⟩ := hcreate stmt hmem
  refine ⟨header, rows, hrec, hstmt, fun stmt2 ps hmem2 => ?_⟩
  obtain ⟨header2, rows2, hrec2, hstmt2⟩ := hinsert stmt2 ps hmem2
  have hpair := hrec.symm.trans hrec2
  injection hpair with hh _
  rw [hstmt2, hh]

/-- Concrete instance of `columns_once` on the fixture run. -/
theorem columns_once_witness :
    ∃ header rows, env0.records = header :: rows ∧
      create_sql "public" "data" (["Permit #", "2nd Street", "notes"].map sanitize_column)
        = create_sql "public" "data" (header.map sanitize_column) ∧
      ∀ stmt2 ps, Event.execInsert stmt2 ps ∈ (runMain a0 env0).1 →
        stmt2 = insert_template "public" "data" (header.map sanitize_column) :=
  columns_once a0 env0 "public" "data" (by decide) (by decide)
    (create_sql "public" "data" (["Permit #", "2nd Street", "notes"].map sanitize_column))
    (by decide)

/-- C8: every executed table-creation statement is exactly
`CREATE TABLE IF NOT EXISTS <schema>.<table> (<col1> text, ...)` built
from the sanitized schema, table and column identifiers in header order,
each passed through identifier quoting. -/
theorem create_statement_shape (a : Args) (env : Env) (s t : String)
    (hs : sanitize_identifier a.schema = some s)
    (ht : sanitize_identifier a.table = some t) :
    ∀ stmt, Event.execCreate stmt ∈ (runMain a env).1 →
      ∃ header rows, env.records = header :: rows ∧
        stmt = create_table_stmt_spec s t (header.map sanitize_column) := by
  intro stmt hmem
  obtain ⟨header, rows, hrec, hstmt⟩ := (trace_statements a env s t hs ht).1 stmt hmem
  exact ⟨header, rows, hrec, hstmt.trans (create_sql_eq_spec s t _)⟩

/-- Concrete instance of `create_statement_shape` on the fixture run. -/
theorem create_statement_shape_witness :
    ∃ header rows, env0.records = header :: rows ∧
      create_sql "public" "data" (["Permit #", "2nd Street", "notes"].map sanitize_column)
        = create_table_stmt_spec "public" "data" (header.map sanitize_column) :=
  create_statement_shape a0 env0 "public" "data" (by decide) (by decide)
    (create_sql "public" "data" (["Permit #", "2nd Street", "notes"].map sanitize_column))
    (by decide)

end CsvLoader
